import Mathlib

/-!
Shallow embedding of the `threejs-showcase-earth` single-page router,
page lifecycle, home-page scene controls, and the `Scene3D` interaction /
visibility-toggle state, together with theorems about them.

The Router (`src/router/router.ts`) keeps a `Map<string, Page>` route
table, a container element, and a nullable current page.  Route
resolution (`handleRouteChange`) looks the current pathname up exactly,
falls back to the `'*'` entry, and on success destroys the current page,
clears the container, creates and appends the new page's root element,
records it as current, sets the document title and scrolls to the top.
We model the DOM side effects as an explicit event trace so ordering
claims (destroy before clear before create) are statable.
-/

namespace Showcase

/-- A page class (constructor passed to `addRoute`): identified by a class
id, with the title its instances report from `getTitle()`. -/
structure PageClass where
  cls : Nat
  title : String
deriving DecidableEq, Repr

/-- A `Page` instance as the router stores it: the class it was
constructed from and its title. -/
structure Page where
  cls : Nat
  title : String
deriving DecidableEq, Repr

/-- `new pageClass()`: constructing an instance of a page class. -/
def PageClass.new (F : PageClass) : Page := ⟨F.cls, F.title⟩

/-- `page.getTitle()`. -/
def Page.getTitle (p : Page) : String := p.title

/-- A root DOM element, identified by the page class whose `create()`
produced it. -/
structure Elem where
  producedBy : Nat
deriving DecidableEq, Repr

/-- `page.create()`: produces the page's root element. -/
def Page.create (p : Page) : Elem := ⟨p.cls⟩

/-- JS `Map.set`: update in place if the key exists (keeping insertion
order), otherwise append. -/
def mapSet (m : List (String × Page)) (k : String) (v : Page) :
    List (String × Page) :=
  match m with
  | [] => [(k, v)]
  | (k', v') :: rest =>
    if k' = k then (k, v) :: rest else (k', v') :: mapSet rest k v

/-- JS `Map.get` (returning `undefined` as `none`). -/
def mapGet (m : List (String × Page)) (k : String) : Option Page :=
  match m with
  | [] => none
  | (k', v') :: rest => if k' = k then some v' else mapGet rest k

/-- Observable DOM / lifecycle events emitted by the router, in the order
the code performs them. -/
inductive Ev where
  | construct (cls : Nat)
  | destroy (cls : Nat)
  | clearContainer
  | create (cls : Nat)
  | append (cls : Nat)
  | setTitle (t : String)
  | scrollTop
deriving DecidableEq, Repr

/-- Router state: the route table, the container's children, the current
page, plus the browser state the router reads and mutates
(`document.title`, `location.pathname`, the history stack, scroll
position).  `setupNavHighlighting` only mutates CSS classes of nav
links, which is outside this state. -/
structure RouterState where
  routes : List (String × Page)
  container : List Elem
  currentPage : Option Page
  title : String
  locationPath : String
  history : List String
  scrollX : Nat
  scrollY : Nat
deriving DecidableEq, Repr

/-- Route resolution: exact lookup of the current pathname, falling back
to the `'*'` entry (`router.ts` lines 50-54). -/
def resolve (s : RouterState) : Option Page :=
  match mapGet s.routes s.locationPath with
  | some p => some p
  | none => mapGet s.routes "*"

/-- `Router.handleRouteChange` (`router.ts` lines 46-78): on a successful
resolution, destroy the current page if any, clear the container, create
and append the new page's element, record it as current, set the title,
scroll to top.  On failure, do nothing.  Returns the new state and the
event trace in execution order. -/
def handleRouteChange (s : RouterState) : RouterState × List Ev :=
  match resolve s with
  | none => (s, [])
  | some page =>
    let destroyEvs : List Ev :=
      match s.currentPage with
      | some cp => [Ev.destroy cp.cls]
      | none => []
    ({ s with
        container := [page.create],
        currentPage := some page,
        title := page.getTitle,
        scrollX := 0, scrollY := 0 },
     destroyEvs ++
       [Ev.clearContainer, Ev.create page.cls, Ev.append page.cls,
        Ev.setTitle page.getTitle, Ev.scrollTop])

/-- `Router.addRoute` (`router.ts` lines 28-30): eagerly constructs the
page instance (`new pageClass()`, emitted as a `construct` event) and
stores it in the route table. -/
def addRoute (s : RouterState) (path : String) (F : PageClass) :
    RouterState × List Ev :=
  ({ s with routes := mapSet s.routes path F.new }, [Ev.construct F.cls])

/-- `Router.navigate` (`router.ts` lines 39-43): push a history entry for
`path` (which updates `location.pathname`) and re-resolve. -/
def navigate (s : RouterState) (path : String) : RouterState × List Ev :=
  handleRouteChange
    { s with history := s.history ++ [path], locationPath := path }

/-- `Router.start` (`router.ts` lines 33-36): initial resolution at the
current location. -/
def start (s : RouterState) : RouterState × List Ev :=
  handleRouteChange s

/-- The `popstate` handler: the browser has already updated
`location.pathname` to `path`; the router re-resolves. -/
def popstate (s : RouterState) (path : String) : RouterState × List Ev :=
  handleRouteChange { s with locationPath := path }

/-- An anchor's resolved URL, split into origin and path component
(`anchor.href` is `origin ++ pathname` for a fragment/query-free URL;
`anchor.pathname` is the path component). -/
structure Url where
  origin : String
  pathname : String
deriving DecidableEq, Repr

/-- The resolved `anchor.href` string. -/
def Url.href (u : Url) : String := u.origin ++ u.pathname

/-- An anchor element: its resolved URL and whether
`anchor.dataset.external` is truthy. -/
structure Anchor where
  url : Url
  extMarker : Bool
deriving DecidableEq, Repr

/-- JS `String.prototype.startsWith`: prefix test on the code units. -/
def strStartsWith (s pre : String) : Bool := pre.data.isPrefixOf s.data

/-- The delegated click listener (`router.ts` lines 16-24): if the click
hit an anchor whose `href` starts with `window.location.origin` and
whose `dataset.external` is not truthy, prevent the default navigation
and call `navigate(anchor.pathname)`.  Returns the new state, whether
`preventDefault` was called, and the emitted events. -/
def handleClick (winOrigin : String) (s : RouterState)
    (a : Option Anchor) : RouterState × Bool × List Ev :=
  match a with
  | none => (s, false, [])
  | some anchor =>
    if strStartsWith anchor.url.href winOrigin && !anchor.extMarker then
      let r := navigate s anchor.url.pathname
      (r.1, true, r.2)
    else
      (s, false, [])

/-- Modelled from the spec: a link is cross-origin when its URL's origin
differs from the window origin ("anchor elements whose resolved href is
same-origin").  The code itself only has the string-prefix test above. -/
def crossOrigin (winOrigin : String) (u : Url) : Bool :=
  u.origin != winOrigin

/-- The operations the outside world can invoke on a router. -/
inductive Op where
  | addRoute (path : String) (F : PageClass)
  | navigate (path : String)
  | popstate (path : String)
  | start
  | click (winOrigin : String) (a : Option Anchor)
deriving Repr

/-- Apply one operation. -/
def applyOp (s : RouterState) (op : Op) : RouterState × List Ev :=
  match op with
  | Op.addRoute path F => addRoute s path F
  | Op.navigate path => navigate s path
  | Op.popstate path => popstate s path
  | Op.start => start s
  | Op.click w a =>
    let r := handleClick w s a
    (r.1, r.2.2)

/-- Run a sequence of operations, accumulating the event trace. -/
def runOps (s : RouterState) : List Op → RouterState × List Ev
  | [] => (s, [])
  | op :: rest =>
    let r := applyOp s op
    let r' := runOps r.1 rest
    (r'.1, r.2 ++ r'.2)

/-- A freshly constructed router bound to an empty container, before any
routes are registered, at location `path0`. -/
def initRouter (path0 : String) : RouterState :=
  { routes := [], container := [], currentPage := none, title := "",
    locationPath := path0, history := [], scrollX := 0, scrollY := 0 }

/-!
HomePage scene controls (`src/pages/HomePage.ts`, `initSceneControls`,
lines 161-204).  The mounted home page has six sidebar checkboxes, all
with the `checked` attribute in the HTML.  `initSceneControls` wires a
`change` listener on each that reads the checkbox's current `checked`
state and calls the corresponding `Scene3D` toggle with it, then
immediately applies each checkbox's current state once. -/

/-- The six scene-control checkboxes / their toggle targets. -/
inductive Control where
  | pole
  | equator
  | longitudeLines
  | latitudeLines
  | stats
  | rendererInfo
deriving DecidableEq, Repr, BEq

/-- Checked state of the six sidebar checkboxes. -/
structure Checkboxes where
  pole : Bool
  equator : Bool
  longitudeLines : Bool
  latitudeLines : Bool
  stats : Bool
  rendererInfo : Bool
deriving DecidableEq, Repr

/-- Read a checkbox's `checked` property. -/
def Checkboxes.get (cb : Checkboxes) : Control → Bool
  | Control.pole => cb.pole
  | Control.equator => cb.equator
  | Control.longitudeLines => cb.longitudeLines
  | Control.latitudeLines => cb.latitudeLines
  | Control.stats => cb.stats
  | Control.rendererInfo => cb.rendererInfo

/-- Write a checkbox's `checked` property. -/
def Checkboxes.set (cb : Checkboxes) : Control → Bool → Checkboxes
  | Control.pole, b => { cb with pole := b }
  | Control.equator, b => { cb with equator := b }
  | Control.longitudeLines, b => { cb with longitudeLines := b }
  | Control.latitudeLines, b => { cb with latitudeLines := b }
  | Control.stats, b => { cb with stats := b }
  | Control.rendererInfo, b => { cb with rendererInfo := b }

/-- Initial checkbox state of the HomePage HTML: every one of the six
inputs carries the `checked` attribute (`HomePage.ts` lines 24-82). -/
def initialCheckboxes : Checkboxes :=
  { pole := true, equator := true, longitudeLines := true,
    latitudeLines := true, stats := true, rendererInfo := true }

/-- The block at the end of `initSceneControls` (`HomePage.ts` lines
196-203): immediately after wiring the listeners, each toggle is called
once with its checkbox's current `checked` state, in source order. -/
def initSceneControlsCalls (cb : Checkboxes) : List (Control × Bool) :=
  [(Control.pole, cb.pole), (Control.equator, cb.equator),
   (Control.longitudeLines, cb.longitudeLines),
   (Control.latitudeLines, cb.latitudeLines),
   (Control.stats, cb.stats), (Control.rendererInfo, cb.rendererInfo)]

/-- A DOM `change` event on checkbox `c`: the browser has flipped the
checkbox's `checked` state before dispatching, and the wired listener
reads the new state and makes exactly one toggle call with it
(`HomePage.ts` lines 171-193). -/
def changeEvent (cb : Checkboxes) (c : Control) :
    Checkboxes × List (Control × Bool) :=
  let cb' := cb.set c (!(cb.get c))
  (cb', [(c, cb'.get c)])

/-!
Scene3D interaction state (`src/3d/Scene3D.ts`).  The one-shot
first-interaction callback: `handleControlStart` (lines 160-171)
disables auto-rotation, clears any pending inactivity timer, and — if
the first interaction has not yet happened and a callback was supplied —
invokes the callback and marks the first interaction done.
`handleControlEnd` (lines 174-184) re-arms the inactivity timer when
auto-rotation is allowed; the timer, when it fires, re-enables
auto-rotation. -/

/-- The Scene3D fields involved in the interaction / auto-rotation
logic.  `inactivityTimerPending` models `inactivityTimeoutId !== null`;
`hasCallback` records whether an `onFirstInteraction` callback was
passed to the constructor. -/
structure CtrlState where
  autoRotateEnabled : Bool
  autoRotateAllowed : Bool
  inactivityTimerPending : Bool
  firstInteractionDone : Bool
  hasCallback : Bool
deriving DecidableEq, Repr

/-- Constructor defaults of the interaction fields (`Scene3D.ts` lines
28-32). -/
def initCtrl (hasCallback : Bool) : CtrlState :=
  { autoRotateEnabled := true, autoRotateAllowed := true,
    inactivityTimerPending := false, firstInteractionDone := false,
    hasCallback := hasCallback }

/-- Events driving the interaction logic: camera-control interaction
start and end, and the inactivity timer firing. -/
inductive CEvent where
  | controlstart
  | controlend
  | timerFire
deriving DecidableEq, Repr

/-- `Scene3D.handleControlStart` (lines 160-171).  The returned `Bool`
is whether the `onFirstInteraction` callback was invoked while handling
this event. -/
def handleControlStart (s : CtrlState) : CtrlState × Bool :=
  let s1 := { s with autoRotateEnabled := false,
                     inactivityTimerPending := false }
  if !s1.firstInteractionDone && s1.hasCallback then
    ({ s1 with firstInteractionDone := true }, true)
  else
    (s1, false)

/-- `Scene3D.handleControlEnd` (lines 174-184): clear any pending timer
and, when auto-rotation is allowed, arm the inactivity timer. -/
def handleControlEnd (s : CtrlState) : CtrlState :=
  if s.autoRotateAllowed then
    { s with inactivityTimerPending := true }
  else
    { s with inactivityTimerPending := false }

/-- The inactivity timer firing (`Scene3D.ts` lines 180-182): re-enables
auto-rotation.  Only a pending timer can fire. -/
def timerFire (s : CtrlState) : CtrlState :=
  if s.inactivityTimerPending then
    { s with autoRotateEnabled := true }
  else
    s

/-- Handle one event; the `Bool` is whether the first-interaction
callback ran during it. -/
def ctrlStep (s : CtrlState) (e : CEvent) : CtrlState × Bool :=
  match e with
  | CEvent.controlstart => handleControlStart s
  | CEvent.controlend => (handleControlEnd s, false)
  | CEvent.timerFire => (timerFire s, false)

/-- Run a sequence of interaction events; the trace records, per event,
whether the callback fired while handling it. -/
def ctrlRun (s : CtrlState) : List CEvent → CtrlState × List Bool
  | [] => (s, [])
  | e :: rest =>
    let r := ctrlStep s e
    let r' := ctrlRun r.1 rest
    (r'.1, r.2 :: r'.2)

/-- Modelled from the spec ("invoked at most once, on the first
user-initiated camera manipulation"): the trace that is `true` exactly
at the first `controlstart` event and `false` everywhere else. -/
def markFirst : List CEvent → List Bool
  | [] => []
  | CEvent.controlstart :: rest => true :: rest.map (fun _ => false)
  | _ :: rest => false :: markFirst rest

/-!
Scene3D visibility toggles (`Scene3D.ts` lines 741-803).  Each public
toggle first checks that its target object exists (the meshes and
groups are created in `initialize()`, the stats widget and renderer-info
div in the constructor, and several are nulled in `dispose()`); if the
target is absent the call does nothing. -/

/-- The nullable scene objects the eight toggles act on: `none` when the
object has not been created (or has been removed), `some v` when it
exists with visibility / display flag `v`. -/
structure SceneObjects where
  earthPole : Option Bool
  equatorLine : Option Bool
  longitudeLinesGroup : Option Bool
  latitudeLinesGroup : Option Bool
  statsDom : Option Bool
  rendererInfoDiv : Option Bool
  primeMeridianGroup : Option Bool
  antimeridianLine : Option Bool
deriving DecidableEq, Repr

/-- `Scene3D.togglePoleVisibility` (lines 741-745). -/
def togglePoleVisibility (s : SceneObjects) (visible : Bool) :
    SceneObjects :=
  match s.earthPole with
  | some _ => { s with earthPole := some visible }
  | none => s

/-- `Scene3D.toggleEquatorVisibility` (lines 748-752). -/
def toggleEquatorVisibility (s : SceneObjects) (visible : Bool) :
    SceneObjects :=
  match s.equatorLine with
  | some _ => { s with equatorLine := some visible }
  | none => s

/-- `Scene3D.toggleLongitudeLinesVisibility` (lines 755-759). -/
def toggleLongitudeLinesVisibility (s : SceneObjects) (visible : Bool) :
    SceneObjects :=
  match s.longitudeLinesGroup with
  | some _ => { s with longitudeLinesGroup := some visible }
  | none => s

/-- `Scene3D.toggleLatitudeLinesVisibility` (lines 761-765). -/
def toggleLatitudeLinesVisibility (s : SceneObjects) (visible : Bool) :
    SceneObjects :=
  match s.latitudeLinesGroup with
  | some _ => { s with latitudeLinesGroup := some visible }
  | none => s

/-- `Scene3D.toggleStatsVisibility` (lines 767-771): sets the stats
widget's display to block/none when the widget exists. -/
def toggleStatsVisibility (s : SceneObjects) (visible : Bool) :
    SceneObjects :=
  match s.statsDom with
  | some _ => { s with statsDom := some visible }
  | none => s

/-- `Scene3D.toggleRendererInfoVisibility` (lines 773-777). -/
def toggleRendererInfoVisibility (s : SceneObjects) (visible : Bool) :
    SceneObjects :=
  match s.rendererInfoDiv with
  | some _ => { s with rendererInfoDiv := some visible }
  | none => s

/-- `Scene3D.togglePrimeMeridianVisibility` (lines 792-796). -/
def togglePrimeMeridianVisibility (s : SceneObjects) (visible : Bool) :
    SceneObjects :=
  match s.primeMeridianGroup with
  | some _ => { s with primeMeridianGroup := some visible }
  | none => s

/-- `Scene3D.toggleAntimeridianVisibility` (lines 799-803). -/
def toggleAntimeridianVisibility (s : SceneObjects) (visible : Bool) :
    SceneObjects :=
  match s.antimeridianLine with
  | some _ => { s with antimeridianLine := some visible }
  | none => s

/-- A Scene3D whose nullable objects are all absent (e.g. before
`initialize()` has created the meshes and after `dispose()` has nulled
the overlay divs). -/
def noObjects : SceneObjects :=
  { earthPole := none, equatorLine := none, longitudeLinesGroup := none,
    latitudeLinesGroup := none, statsDom := none,
    rendererInfoDiv := none, primeMeridianGroup := none,
    antimeridianLine := none }

/-- The HomePage instance as registered by `main.ts` (`addRoute('/',
HomePage)`), with its `getTitle()` string from `HomePage.ts` line 111. -/
def homePage : Page := ⟨0, "3D Experience | Home"⟩

/-- The NotFoundPage instance as registered by `main.ts`
(`addRoute('*', NotFoundPage)`), with its `getTitle()` string from
`NotFoundPage.ts` line 28. -/
def notFoundPage : Page := ⟨1, "404 - Page Not Found"⟩

/-- The router state after `main.ts` has registered both routes and
`start()` has resolved at `/`: HomePage is mounted. -/
def demoState : RouterState :=
  { routes := [("/", homePage), ("*", notFoundPage)],
    container := [homePage.create], currentPage := some homePage,
    title := homePage.getTitle, locationPath := "/", history := [],
    scrollX := 0, scrollY := 0 }

/-! Helper lemmas. -/

theorem mapSet_mapSet (m : List (String × Page)) (k : String)
    (v1 v2 : Page) : mapSet (mapSet m k v1) k v2 = mapSet m k v2 := by
  induction m with
  | nil => simp [mapSet]
  | cons kv rest ih =>
    obtain ⟨k', v'⟩ := kv
    by_cases hk : k' = k
    · simp [mapSet, hk]
    · simp [mapSet, hk, ih]

theorem mapGet_mapSet_self (m : List (String × Page)) (k : String)
    (v : Page) : mapGet (mapSet m k v) k = some v := by
  induction m with
  | nil => simp [mapSet, mapGet]
  | cons kv rest ih =>
    obtain ⟨k', v'⟩ := kv
    by_cases hk : k' = k
    · simp [mapSet, mapGet, hk]
    · simp [mapSet, mapGet, hk, ih]

theorem isPrefixOf_append_self (l1 l2 : List Char) :
    l1.isPrefixOf (l1 ++ l2) = true := by
  induction l1 with
  | nil => simp [List.isPrefixOf]
  | cons a as ih => simp [List.isPrefixOf, ih]

theorem handleRouteChange_container (s : RouterState) :
    ((handleRouteChange s).1.container = s.container) ∨
    ((handleRouteChange s).1.container.length = 1) := by
  cases hr : resolve s
  · left
    simp [handleRouteChange, hr]
  · right
    simp [handleRouteChange, hr]

theorem handleRouteChange_container_le (s : RouterState)
    (h : s.container.length ≤ 1) :
    (handleRouteChange s).1.container.length ≤ 1 := by
  rcases handleRouteChange_container s with hc | hc
  · rw [hc]
    exact h
  · exact hc.le

theorem applyOp_container_le (s : RouterState) (op : Op)
    (h : s.container.length ≤ 1) :
    (applyOp s op).1.container.length ≤ 1 := by
  cases op with
  | addRoute path F => exact h
  | navigate path => exact handleRouteChange_container_le _ h
  | popstate path => exact handleRouteChange_container_le _ h
  | start => exact handleRouteChange_container_le _ h
  | click w a =>
    cases a with
    | none => exact h
    | some anchor =>
      by_cases hc :
          (strStartsWith anchor.url.href w && !anchor.extMarker) = true
      · show (handleClick w s (some anchor)).1.container.length ≤ 1
        simp only [handleClick, hc, if_true]
        exact handleRouteChange_container_le _ h
      · show (handleClick w s (some anchor)).1.container.length ≤ 1
        simp only [handleClick, hc, if_false]
        exact h

theorem runOps_container_le (ops : List Op) :
    ∀ s : RouterState, s.container.length ≤ 1 →
      (runOps s ops).1.container.length ≤ 1 := by
  induction ops with
  | nil =>
    intro s h
    exact h
  | cons op rest ih =>
    intro s h
    exact ih _ (applyOp_container_le s op h)

/-- C1: over every sequence of router operations from a fresh router the
container holds at most one page root element, and whenever a route
resolution succeeds while a page is currently mounted, the emitted event
trace is exactly destroy-the-current-page, clear the container, create
the new page, append it, set the title, scroll — so the mounted page's
`destroy()` runs exactly once, before the container is cleared and
before `create()` on the new page. -/
theorem router_single_mount_and_destroy_order (path0 : String)
    (ops : List Op) (s : RouterState) (cp page : Page)
    (hcur : s.currentPage = some cp) (hres : resolve s = some page) :
    ((runOps (initRouter path0) ops).1.container.length ≤ 1) ∧
    ((handleRouteChange s).2 =
      [Ev.destroy cp.cls, Ev.clearContainer, Ev.create page.cls,
       Ev.append page.cls, Ev.setTitle page.getTitle, Ev.scrollTop]) ∧
    ((handleRouteChange s).2.count (Ev.destroy cp.cls) = 1) := by
  refine ⟨?_, ?_, ?_⟩
  · exact runOps_container_le ops (initRouter path0) (by simp [initRouter])
  · simp [handleRouteChange, hres, hcur]
  · simp [handleRouteChange, hres, hcur, List.count_cons]

/-- C1 witness: instantiated at the demo state (HomePage mounted at `/`)
with a new resolution at `/`. -/
theorem router_single_mount_and_destroy_order_w :
    ((runOps (initRouter "/") []).1.container.length ≤ 1) ∧
    ((handleRouteChange demoState).2 =
      [Ev.destroy homePage.cls, Ev.clearContainer,
       Ev.create homePage.cls, Ev.append homePage.cls,
       Ev.setTitle homePage.getTitle, Ev.scrollTop]) ∧
    ((handleRouteChange demoState).2.count (Ev.destroy homePage.cls)
      = 1) :=
  router_single_mount_and_destroy_order "/" [] demoState homePage
    homePage (by decide) (by decide)

/-- C2: navigating to a registered path mounts exactly the element
produced by that page's `create()` as the container's sole child,
records the page as current, and sets the document title to its
`getTitle()`. -/
theorem router_navigate_mounts_registered (s : RouterState) (p : String)
    (page : Page) (h : mapGet s.routes p = some page) :
    ((navigate s p).1.container = [page.create]) ∧
    ((navigate s p).1.currentPage = some page) ∧
    ((navigate s p).1.title = page.getTitle) := by
  simp [navigate, handleRouteChange, resolve, h]

/-- C2 witness: navigating the demo router to `/` mounts HomePage. -/
theorem router_navigate_mounts_registered_w :
    ((navigate demoState "/").1.container = [homePage.create]) ∧
    ((navigate demoState "/").1.currentPage = some homePage) ∧
    ((navigate demoState "/").1.title = homePage.getTitle) :=
  router_navigate_mounts_registered demoState "/" homePage (by decide)

/-- C3: for a path with no exact registration, if a wildcard `*` route
exists resolution mounts the wildcard page; if not, resolution is a
silent no-op: the container, current page, title and scroll position are
unchanged and no event (in particular no `destroy`) is emitted. -/
theorem router_unmatched_fallback_or_noop (s : RouterState) (p : String)
    (h : mapGet s.routes p = none) :
    (∀ w : Page, mapGet s.routes "*" = some w →
      ((navigate s p).1.container = [w.create]) ∧
      ((navigate s p).1.currentPage = some w) ∧
      ((navigate s p).1.title = w.getTitle)) ∧
    (mapGet s.routes "*" = none →
      ((navigate s p).1.container = s.container) ∧
      ((navigate s p).1.currentPage = s.currentPage) ∧
      ((navigate s p).1.title = s.title) ∧
      ((navigate s p).1.scrollX = s.scrollX) ∧
      ((navigate s p).1.scrollY = s.scrollY) ∧
      ((navigate s p).2 = [])) := by
  constructor
  · intro w hw
    simp [navigate, handleRouteChange, resolve, h, hw]
  · intro hw
    simp [navigate, handleRouteChange, resolve, h, hw]

/-- C3 witness: navigating the demo router to an unregistered path falls
back to the wildcard NotFoundPage. -/
theorem router_unmatched_fallback_or_noop_w :
    ((navigate demoState "/unknown").1.container
      = [notFoundPage.create]) ∧
    ((navigate demoState "/unknown").1.currentPage
      = some notFoundPage) ∧
    ((navigate demoState "/unknown").1.title
      = notFoundPage.getTitle) :=
  (router_unmatched_fallback_or_noop demoState "/unknown"
    (by decide)).1 notFoundPage (by decide)

/-- C6: for a path registered twice, the later `addRoute` silently
replaces the earlier one, leaving the same route table as registering
only the later class; and `addRoute` constructs its page instance
eagerly at registration time (the `construct` event is emitted by the
`addRoute` call itself, and the table already holds the instance). -/
theorem router_addRoute_replace_and_eager (s : RouterState) (p : String)
    (F1 F2 : PageClass) :
    ((addRoute (addRoute s p F1).1 p F2).1.routes
      = (addRoute s p F2).1.routes) ∧
    ((addRoute s p F1).2 = [Ev.construct F1.cls]) ∧
    (mapGet (addRoute s p F1).1.routes p = some F1.new) := by
  refine ⟨?_, rfl, ?_⟩
  · show mapSet (mapSet s.routes p F1.new) p F2.new
      = mapSet s.routes p F2.new
    exact mapSet_mapSet s.routes p F1.new F2.new
  · exact mapGet_mapSet_self s.routes p F1.new

/-- C9: navigating to the path of the already-mounted page performs the
full teardown and rebuild — its `destroy()` is called, the container is
cleared, and its `create()` runs again; there is no short-circuit. -/
theorem router_renavigate_full_rebuild (s : RouterState) (p : String)
    (page : Page) (h : mapGet s.routes p = some page)
    (hcur : s.currentPage = some page) :
    ((navigate s p).2 =
      [Ev.destroy page.cls, Ev.clearContainer, Ev.create page.cls,
       Ev.append page.cls, Ev.setTitle page.getTitle, Ev.scrollTop]) ∧
    ((navigate s p).1.container = [page.create]) ∧
    ((navigate s p).1.currentPage = some page) := by
  refine ⟨?_, ?_, ?_⟩ <;>
    simp [navigate, handleRouteChange, resolve, h, hcur]

/-- C9 witness: re-navigating the demo router to `/` while HomePage is
mounted destroys and re-creates HomePage. -/
theorem router_renavigate_full_rebuild_w :
    ((navigate demoState "/").2 =
      [Ev.destroy homePage.cls, Ev.clearContainer,
       Ev.create homePage.cls, Ev.append homePage.cls,
       Ev.setTitle homePage.getTitle, Ev.scrollTop]) ∧
    ((navigate demoState "/").1.container = [homePage.create]) ∧
    ((navigate demoState "/").1.currentPage = some homePage) :=
  router_renavigate_full_rebuild demoState "/" homePage (by decide)
    (by decide)

/-- C4 counterexample: the code tests "same-origin" with
`href.startsWith(origin)`, which is a string-prefix check.  A
cross-origin link whose href begins with the window origin string —
origin `http://a.com`, link origin `http://a.com.evil` — IS intercepted:
`preventDefault` is called, refuting the claim that every cross-origin
click is left to default browser handling. -/
theorem router_cross_origin_intercepted_cex :
    (crossOrigin "http://a.com" ⟨"http://a.com.evil", "/x"⟩ = true) ∧
    ((handleClick "http://a.com" (initRouter "/")
        (some ⟨⟨"http://a.com.evil", "/x"⟩, false⟩)).2.1 = true) := by
  constructor
  · decide
  · decide

/-- C4 (amended): for every click on a link that carries a truthy
external marker, or whose resolved href does not start with the window
origin string, the Router does not intercept: `preventDefault` is not
called, no events are emitted, and the router state is unchanged.  (The
code approximates "cross-origin" by this string-prefix test, so a
cross-origin href that happens to begin with the origin string is still
intercepted.) -/
theorem router_click_passthrough (w : String) (s : RouterState)
    (a : Anchor)
    (h : a.extMarker = true ∨ strStartsWith a.url.href w = false) :
    handleClick w s (some a) = (s, false, []) := by
  rcases h with h | h <;> simp [handleClick, h]

/-- C4 witness: an externally-marked same-origin link is not
intercepted. -/
theorem router_click_passthrough_w :
    handleClick "http://a.com" (initRouter "/")
      (some ⟨⟨"http://a.com", "/x"⟩, true⟩)
      = (initRouter "/", false, []) :=
  router_click_passthrough "http://a.com" (initRouter "/")
    ⟨⟨"http://a.com", "/x"⟩, true⟩ (Or.inl rfl)

/-- C5: a click on a same-origin anchor without the external marker is
intercepted — `preventDefault` is called (no full page reload) — and the
resulting router state and event trace are exactly those of calling
`navigate()` directly with the link's path component. -/
theorem router_same_origin_click_equals_navigate (w : String)
    (s : RouterState) (u : Url) (h : u.origin = w) :
    handleClick w s (some ⟨u, false⟩) =
      ((navigate s u.pathname).1, true, (navigate s u.pathname).2) := by
  have hpre : strStartsWith u.href w = true := by
    subst h
    show u.origin.data.isPrefixOf (u.origin ++ u.pathname).data = true
    have hd : (u.origin ++ u.pathname).data
        = u.origin.data ++ u.pathname.data := rfl
    rw [hd]
    exact isPrefixOf_append_self _ _
  simp [handleClick, hpre]

/-- C5 witness: a same-origin click on `/x` equals `navigate('/x')`. -/
theorem router_same_origin_click_equals_navigate_w :
    handleClick "http://a.com" demoState
      (some ⟨⟨"http://a.com", "/x"⟩, false⟩) =
      ((navigate demoState "/x").1, true, (navigate demoState "/x").2) :=
  router_same_origin_click_equals_navigate "http://a.com" demoState
    ⟨"http://a.com", "/x"⟩ rfl

/-- C7: on the mounted HomePage, a change event that flips a sidebar
checkbox from checked to unchecked makes exactly one toggle call, with
argument `false`, for the corresponding scene-controller toggle and
with no other argument value; and immediately after wiring the
listeners, `initSceneControls` invokes each control's toggle exactly
once, with that checkbox's initial checked state. -/
theorem homepage_checkbox_toggle_calls (cb : Checkboxes) (c : Control) :
    (cb.get c = true → (changeEvent cb c).2 = [(c, false)]) ∧
    ((initSceneControlsCalls cb).filter (fun x => x.1 == c)
      = [(c, cb.get c)]) := by
  constructor
  · intro h
    cases c <;>
      simp [Checkboxes.get] at h <;>
      simp [changeEvent, Checkboxes.get, Checkboxes.set, h]
  · cases c <;> rfl

/-- C7 witness: unchecking the initially-checked pole checkbox calls the
pole toggle once with `false`. -/
theorem homepage_checkbox_toggle_calls_w :
    ((changeEvent initialCheckboxes Control.pole).2
      = [(Control.pole, false)]) :=
  (homepage_checkbox_toggle_calls initialCheckboxes Control.pole).1 rfl

/-- C10: every public Scene3D visibility toggle is total (defined, hence
never throwing, on every state) and is a guarded no-op when its target
scene object is absent: the entire state is returned unchanged. -/
theorem scene3d_toggles_total_guarded (s : SceneObjects) (v : Bool) :
    (s.earthPole = none → togglePoleVisibility s v = s) ∧
    (s.equatorLine = none → toggleEquatorVisibility s v = s) ∧
    (s.longitudeLinesGroup = none →
      toggleLongitudeLinesVisibility s v = s) ∧
    (s.latitudeLinesGroup = none →
      toggleLatitudeLinesVisibility s v = s) ∧
    (s.statsDom = none → toggleStatsVisibility s v = s) ∧
    (s.rendererInfoDiv = none → toggleRendererInfoVisibility s v = s) ∧
    (s.primeMeridianGroup = none →
      togglePrimeMeridianVisibility s v = s) ∧
    (s.antimeridianLine = none →
      toggleAntimeridianVisibility s v = s) := by
  refine ⟨?_, ?_, ?_, ?_, ?_, ?_, ?_, ?_⟩ <;> intro h <;>
    simp [togglePoleVisibility, toggleEquatorVisibility,
      toggleLongitudeLinesVisibility, toggleLatitudeLinesVisibility,
      toggleStatsVisibility, toggleRendererInfoVisibility,
      togglePrimeMeridianVisibility, toggleAntimeridianVisibility, h]

/-- C10 witness: on a Scene3D with no created objects, every toggle
leaves the state unchanged. -/
theorem scene3d_toggles_total_guarded_w :
    (togglePoleVisibility noObjects true = noObjects) ∧
    (toggleEquatorVisibility noObjects true = noObjects) ∧
    (toggleLongitudeLinesVisibility noObjects true = noObjects) ∧
    (toggleLatitudeLinesVisibility noObjects true = noObjects) ∧
    (toggleStatsVisibility noObjects true = noObjects) ∧
    (toggleRendererInfoVisibility noObjects true = noObjects) ∧
    (togglePrimeMeridianVisibility noObjects true = noObjects) ∧
    (toggleAntimeridianVisibility noObjects true = noObjects) :=
  ⟨(scene3d_toggles_total_guarded noObjects true).1 rfl,
   (scene3d_toggles_total_guarded noObjects true).2.1 rfl,
   (scene3d_toggles_total_guarded noObjects true).2.2.1 rfl,
   (scene3d_toggles_total_guarded noObjects true).2.2.2.1 rfl,
   (scene3d_toggles_total_guarded noObjects true).2.2.2.2.1 rfl,
   (scene3d_toggles_total_guarded noObjects true).2.2.2.2.2.1 rfl,
   (scene3d_toggles_total_guarded noObjects true).2.2.2.2.2.2.1 rfl,
   (scene3d_toggles_total_guarded noObjects true).2.2.2.2.2.2.2 rfl⟩

theorem handleControlEnd_done (s : CtrlState) :
    (handleControlEnd s).firstInteractionDone = s.firstInteractionDone := by
  unfold handleControlEnd
  split <;> rfl

theorem handleControlEnd_cb (s : CtrlState) :
    (handleControlEnd s).hasCallback = s.hasCallback := by
  unfold handleControlEnd
  split <;> rfl

theorem timerFire_done (s : CtrlState) :
    (timerFire s).firstInteractionDone = s.firstInteractionDone := by
  unfold timerFire
  split <;> rfl

theorem timerFire_cb (s : CtrlState) :
    (timerFire s).hasCallback = s.hasCallback := by
  unfold timerFire
  split <;> rfl

theorem ctrlRun_no_fires (es : List CEvent) :
    ∀ s : CtrlState,
      s.firstInteractionDone = true ∨ s.hasCallback = false →
      (ctrlRun s es).2 = es.map (fun _ => false) := by
  induction es with
  | nil =>
    intro s _
    rfl
  | cons e rest ih =>
    intro s h
    cases e with
    | controlstart =>
      have hstep : ctrlStep s CEvent.controlstart =
          ({ s with autoRotateEnabled := false,
                    inactivityTimerPending := false }, false) := by
        rcases h with h | h <;>
          simp [ctrlStep, handleControlStart, h]
      simp only [ctrlRun, hstep, List.map]
      exact congrArg (false :: ·) (ih _ h)
    | controlend =>
      simp only [ctrlRun, ctrlStep, List.map]
      refine congrArg (false :: ·) (ih _ ?_)
      rcases h with h | h
      · exact Or.inl ((handleControlEnd_done s).trans h)
      · exact Or.inr ((handleControlEnd_cb s).trans h)
    | timerFire =>
      simp only [ctrlRun, ctrlStep, List.map]
      refine congrArg (false :: ·) (ih _ ?_)
      rcases h with h | h
      · exact Or.inl ((timerFire_done s).trans h)
      · exact Or.inr ((timerFire_cb s).trans h)

theorem ctrlRun_markFirst (es : List CEvent) :
    ∀ s : CtrlState, s.firstInteractionDone = false →
      s.hasCallback = true → (ctrlRun s es).2 = markFirst es := by
  induction es with
  | nil =>
    intro s _ _
    rfl
  | cons e rest ih =>
    intro s h1 h2
    cases e with
    | controlstart =>
      have hstep : ctrlStep s CEvent.controlstart =
          ({ s with autoRotateEnabled := false,
                    inactivityTimerPending := false,
                    firstInteractionDone := true }, true) := by
        simp [ctrlStep, handleControlStart, h1, h2]
      simp only [ctrlRun, hstep, markFirst]
      exact congrArg (true :: ·) (ctrlRun_no_fires rest _ (Or.inl rfl))
    | controlend =>
      simp only [ctrlRun, ctrlStep, markFirst]
      exact congrArg (false :: ·)
        (ih _ ((handleControlEnd_done s).trans h1)
          ((handleControlEnd_cb s).trans h2))
    | timerFire =>
      simp only [ctrlRun, ctrlStep, markFirst]
      exact congrArg (false :: ·)
        (ih _ ((timerFire_done s).trans h1)
          ((timerFire_cb s).trans h2))

theorem count_true_map_false (l : List CEvent) :
    (l.map (fun _ => false)).count true = 0 := by
  induction l with
  | nil => rfl
  | cons e rest ih =>
    simp only [List.map_cons, List.count_cons, ih]
    simp

theorem count_true_markFirst (es : List CEvent) :
    (markFirst es).count true ≤ 1 := by
  induction es with
  | nil => simp [markFirst]
  | cons e rest ih =>
    cases e with
    | controlstart =>
      simp only [markFirst, List.count_cons, count_true_map_false]
      simp
    | controlend =>
      simp only [markFirst, List.count_cons]
      simp [ih]
    | timerFire =>
      simp only [markFirst, List.count_cons]
      simp [ih]

/-- C8: for a Scene3D constructed with or without an
`onFirstInteraction` callback and any sequence of camera-control
interaction events, the callback fires at most once; with a callback
supplied, the per-event firing trace is exactly `markFirst` — `true`
precisely at the first `controlstart` event, the first user-initiated
camera manipulation — and with none supplied it never fires. -/
theorem scene3d_first_interaction_once (hasCb : Bool)
    (es : List CEvent) :
    ((ctrlRun (initCtrl hasCb) es).2.count true ≤ 1) ∧
    (hasCb = true →
      (ctrlRun (initCtrl hasCb) es).2 = markFirst es) ∧
    (hasCb = false →
      (ctrlRun (initCtrl hasCb) es).2.count true = 0) := by
  refine ⟨?_, ?_, ?_⟩
  · cases hasCb
    · rw [ctrlRun_no_fires es _ (Or.inr rfl), count_true_map_false]
      exact Nat.zero_le 1
    · rw [ctrlRun_markFirst es _ rfl rfl]
      exact count_true_markFirst es
  · intro h
    subst h
    exact ctrlRun_markFirst es _ rfl rfl
  · intro h
    subst h
    rw [ctrlRun_no_fires es _ (Or.inr rfl), count_true_map_false]

/-- C8 witness: with a callback supplied and events
controlend, controlstart, controlstart, the callback fires exactly at
the first controlstart. -/
theorem scene3d_first_interaction_once_w :
    (ctrlRun (initCtrl true)
      [CEvent.controlend, CEvent.controlstart, CEvent.controlstart]).2
      = markFirst
        [CEvent.controlend, CEvent.controlstart, CEvent.controlstart] :=
  (scene3d_first_interaction_once true
    [CEvent.controlend, CEvent.controlstart, CEvent.controlstart]).2.1
    rfl

end Showcase
